import Mathlib

/-!
Shallow embedding of `packages/serverless/src/google-cloud-grpc.ts`: the
`GoogleCloudGrpc` integration that patches `google-gax`'s
`GrpcClient.prototype.createStub` so that every stub it creates has its
unary methods wrapped; a wrapped method starts a tracing span under the
ambient transaction and finishes it when the returned call handle emits
its terminal `status` event.

Modelling conventions:
- Opaque JavaScript values (method arguments, the stored tracing client,
  object identities used as receivers) are represented by `Nat`.
- A thrown JS exception is `Except.error`; a promise-like value is its
  settlement time in event-loop order together with its outcome, so that
  "does not resolve before the original" is the statement
  `origTime ≤ wrapperTime`.
- The wrapper closures capture the tracing client only to read
  `client.getScope().getTransaction()` at invocation time; the invocation
  semantics therefore takes the ambient transaction at that moment as an
  `Option Nat` argument.
- The external `fill` helper from `@sentry/utils` (not part of this file's
  source) replaces `source[name]` with `replacementFactory(source[name])`
  in place; property replacement is modelled directly where it is used.
-/

/-- A method argument: an opaque JS value. -/
abbrev Arg := Nat

/-- A JS exception: an opaque user-level error, or the TypeError raised by
invoking a non-callable property. -/
inductive Err where
  | userError (n : Nat)
  | notCallable
  deriving DecidableEq

/-- The event-capable handle a grpc stub method returns. `onIsFunction`
records whether `typeof handle.on === 'function'`. -/
structure Handle where
  id : Nat
  onIsFunction : Bool
  deriving DecidableEq

/-- The check `typeof ret?.on === 'function'` on a possibly nullish return
value (`none` models a null or undefined return, whose optional chaining
yields undefined, which is not a function). -/
def retOnIsFunction : Option Handle → Bool
  | none => false
  | some h => h.onIsFunction

/-- A grpc stub method as supplied by the library: its streaming flags, its
original name, and its call behaviour (receiver and arguments to a thrown
error or a returned, possibly nullish, handle). -/
structure GrpcFunctionObject where
  requestStream : Bool
  responseStream : Bool
  originalName : String
  call : Nat → List Arg → Except Err (Option Handle)

/-- A function stored in a stub slot: either an original library method or
the tracing wrapper installed by `fillGrpcFunction`, which closes over the
stub (its identity), the computed call type, the method name and the
service identifier. -/
inductive Func where
  | orig (f : GrpcFunctionObject)
  | wrapper (inner : Func) (stubId : Nat) (callType methodName serviceIdentifier : String)

/-- `funcObj.requestStream` read off a slot value; the wrapper closure has
no such property, so the read yields undefined, which is falsy. -/
def requestStreamOf : Func → Bool
  | .orig f => f.requestStream
  | .wrapper .. => false

/-- `funcObj.responseStream` read off a slot value; undefined (falsy) on a
wrapper closure. -/
def responseStreamOf : Func → Bool
  | .orig f => f.responseStream
  | .wrapper .. => false

/-- The nested conditional of `fillGrpcFunction` classifying the call type
from the two streaming flags. -/
def callTypeOf (funcObj : Func) : String :=
  if !requestStreamOf funcObj && !responseStreamOf funcObj then "unary call"
  else if requestStreamOf funcObj && !responseStreamOf funcObj then "client stream"
  else if !requestStreamOf funcObj && responseStreamOf funcObj then "server stream"
  else "bidi stream"

/-- A property found on a stub: a function object, or a non-callable value
(`typeof funcObj !== 'function'`). -/
inductive StubProp where
  | func (fn : Func)
  | value (v : Nat)

/-- The data of a span started by `transaction.startChild`. -/
structure SpanData where
  description : String
  op : String
  deriving DecidableEq

/-- Observable outcome of invoking a stub slot once: the returned value (or
thrown error), the calls made to original library methods (receiver and
argument list, in order), the spans started, and the `status` listeners
attached. Each listener records the span captured by its closure; Node's
EventEmitter invokes it once per `status` emission, and its body finishes
the captured span iff one exists. -/
structure MethodCallResult where
  ret : Except Err (Option Handle)
  origCalls : List (Nat × List Arg)
  startedSpans : List SpanData
  statusListeners : List (Option SpanData)

/-- Invocation semantics of a stub slot function. An original method just
runs; the wrapper runs `orig.apply(stub, args)`, returns the result
unmodified when it lacks a callable `on`, otherwise starts a child span
when an ambient transaction exists and subscribes a `status` listener that
finishes that span. -/
def invokeFunc : Func → Nat → Option Nat → List Arg → MethodCallResult
  | .orig f, thisArg, _tx, args =>
    { ret := f.call thisArg args, origCalls := [(thisArg, args)],
      startedSpans := [], statusListeners := [] }
  | .wrapper inner stubId callType methodName serviceIdentifier, _thisArg, tx, args =>
    let r := invokeFunc inner stubId tx args
    match r.ret with
    | .error _ => r
    | .ok ret =>
      if retOnIsFunction ret = false then r
      else
        match tx with
        | some _ =>
          let span : SpanData :=
            { description := callType ++ " " ++ methodName,
              op := "gcloud.grpc." ++ serviceIdentifier }
          { r with
            startedSpans := r.startedSpans ++ [span],
            statusListeners := r.statusListeners ++ [some span] }
        | none => { r with statusListeners := r.statusListeners ++ [none] }

/-- Invoking a stub property: invoking a non-callable value throws a
TypeError; a function runs by `invokeFunc`. -/
def invokeProp : StubProp → Nat → Option Nat → List Arg → MethodCallResult
  | .value _, _, _, _ =>
    { ret := .error .notCallable, origCalls := [], startedSpans := [], statusListeners := [] }
  | .func fn, thisArg, tx, args => invokeFunc fn thisArg tx args

/-- Total number of `span.finish()` calls performed by the attached
`status` listeners when the handle emits `status` exactly
`statusEmissions` times. -/
def spanFinishCount (r : MethodCallResult) (statusEmissions : Nat) : Nat :=
  (r.statusListeners.map (fun captured =>
    match captured with
    | some _ => statusEmissions
    | none => 0)).sum

/-- The JS `\w` character class: `[A-Za-z0-9_]`. -/
def isWordChar (c : Char) : Bool := c.isAlphanum || c == '_'

/-- The JS regex `.` without the `s` flag: any single UTF-16 code unit
except a line terminator. A scalar above the Basic Multilingual Plane
occupies two units and cannot be matched by a single dot. -/
def jsDot (c : Char) : Bool :=
  !(c == '\n' || c == '\r' || c == '\u2028' || c == '\u2029') && decide (c.toNat < 65536)

/-- The part of `/^(\w+)\.googleapis.com$/` after the captured prefix: a
literal (escaped) dot, the letters of "googleapis", one character matched
by the unescaped dot, then "com", then end of input. -/
def tailMatches : List Char → Bool
  | '.' :: 'g' :: 'o' :: 'o' :: 'g' :: 'l' :: 'e' :: 'a' :: 'p' :: 'i' :: 's' :: c :: 'c' :: 'o' :: 'm' :: [] => jsDot c
  | _ => false

/-- `identifyService`: `servicePath.match(/^(\w+)\.googleapis.com$/)`,
returning the captured group on a match and the input unchanged otherwise.
Because `\w` does not match a dot and the character after the capture must
be a literal dot, the capture on a match is exactly the maximal leading
run of word characters. -/
def identifyService (servicePath : String) : String :=
  if !(servicePath.data.takeWhile isWordChar).isEmpty
      && tailMatches (servicePath.data.dropWhile isWordChar)
  then String.mk (servicePath.data.takeWhile isWordChar)
  else servicePath

/-- A stub object: its identity (used as the receiver captured by method
wrappers), the property names of its prototype, and its properties. -/
structure Stub where
  id : Nat
  protoKeys : List String
  props : String → StubProp

/-- The second positional argument to `createStub`. -/
structure StubOptions where
  servicePath : Option String

/-- The argument list of `createStub`: an opaque first argument and a
possibly absent options object. -/
structure CreateArgs where
  arg0 : Nat
  options : Option StubOptions

/-- `args[1]?.servicePath`, with null and undefined both collapsed to
`none` (the source tests `servicePath == null || servicePath == undefined`). -/
def servicePathOf (cargs : CreateArgs) : Option String :=
  cargs.options.bind (fun o => o.servicePath)

/-- A promise-like value: its settlement time in event-loop order and its
outcome. -/
structure Promise (α : Type) where
  time : Nat
  result : Except Err α

/-- `fillGrpcFunction`: reads `stub[methodName]`; does nothing when it is
not callable; computes the call type; does nothing when the call type is
not "unary call"; otherwise replaces the property (via the external `fill`
helper) with the tracing wrapper closing over the stub, call type, method
name and service identifier. Returns the new value of that property. -/
def fillGrpcFunction (stubId : Nat) (serviceIdentifier methodName : String)
    (prop : StubProp) : StubProp :=
  match prop with
  | .value v => .value v
  | .func funcObj =>
    let callType := callTypeOf funcObj
    if callType ≠ "unary call" then .func funcObj
    else .func (.wrapper funcObj stubId callType methodName serviceIdentifier)

/-- In-place property update on a stub's property table. -/
def setProp (props : String → StubProp) (name : String) (v : StubProp) :
    String → StubProp :=
  fun k => if k = name then v else props k

/-- The loop `for (const methodName of Object.keys(Object.getPrototypeOf(stub)))`
applying `fillGrpcFunction` to each prototype key of the freshly created
stub. -/
def wrapStubMethods (serviceIdentifier : String) (stub : Stub) : Stub :=
  { stub with
    props := stub.protoKeys.foldl
      (fun ps methodName =>
        setProp ps methodName
          (fillGrpcFunction stub.id serviceIdentifier methodName (ps methodName)))
      stub.props }

/-- The async function returned by `_wrapCreateStub` applied to the original
`createStub`: when `args[1]?.servicePath` is nullish it defers entirely to
the original; otherwise it derives the service identifier, awaits the
original (so it settles no earlier than the original and rethrows its
failure unchanged), wraps every prototype method of the stub and resolves
with the stub. -/
def _wrapCreateStub (origCreate : CreateArgs → Promise Stub) (cargs : CreateArgs) :
    Promise Stub :=
  match servicePathOf cargs with
  | none => origCreate cargs
  | some servicePath =>
    let serviceIdentifier := identifyService servicePath
    let p := origCreate cargs
    match p.result with
    | .error e => { time := p.time, result := .error e }
    | .ok stub => { time := p.time, result := .ok (wrapStubMethods serviceIdentifier stub) }

/-- The installer's state: the stored tracing client reference (`none`
before `install` assigns it) and the immutable `optional` flag. -/
structure GoogleCloudGrpc where
  _client : Option Nat
  _optional : Bool
  deriving DecidableEq

/-- The constructor: `this._optional = options.optional || false`, so the
flag defaults to false when options are omitted or the field is absent. -/
def GoogleCloudGrpc.new (options : Option Bool) : GoogleCloudGrpc :=
  { _client := none, _optional := options.getD false }

/-- The `google-gax` `GrpcClient.prototype` slot that `install` patches. -/
structure GrpcClientProto where
  createStub : CreateArgs → Promise Stub

/-- `install(client)`: assigns `this._client = client`, then inside a try
block requires `google-gax` and replaces `GrpcClient.prototype.createStub`
with the wrapping function; a load failure is rethrown unless `_optional`
is set, in which case it is swallowed and nothing is patched. The require
outcome is the `load` argument; the result carries the installer state
afterwards and the patched prototype (`none` when nothing was patched). -/
def GoogleCloudGrpc.install (self : GoogleCloudGrpc) (client : Nat)
    (load : Except Err GrpcClientProto) :
    Except Err (GoogleCloudGrpc × Option GrpcClientProto) :=
  let self1 := { self with _client := some client }
  match load with
  | .ok gax => .ok (self1, some { createStub := _wrapCreateStub gax.createStub })
  | .error e => if self1._optional then .ok (self1, none) else .error e

/-- Concrete fixture: an event-capable handle. -/
def sampleHandle : Handle := { id := 1, onIsFunction := true }

/-- Concrete fixture: a unary method returning an event-capable handle. -/
def sampleUnaryFunc : GrpcFunctionObject :=
  { requestStream := false, responseStream := false, originalName := "getFoo",
    call := fun _ _ => .ok (some sampleHandle) }

/-- Concrete fixture: a client-streaming method. -/
def sampleStreamFunc : GrpcFunctionObject :=
  { requestStream := true, responseStream := false, originalName := "streamFoo",
    call := fun _ _ => .ok (some sampleHandle) }

/-- Concrete fixture: a unary method returning a nullish handle. -/
def sampleNullFunc : GrpcFunctionObject :=
  { requestStream := false, responseStream := false, originalName := "getNull",
    call := fun _ _ => .ok none }

/-- Concrete fixture: a unary method that throws. -/
def sampleFailFunc : GrpcFunctionObject :=
  { requestStream := false, responseStream := false, originalName := "getErr",
    call := fun _ _ => .error (.userError 5) }

/-- Concrete fixture: an empty stub. -/
def sampleStub : Stub := { id := 7, protoKeys := [], props := fun _ => .value 0 }

/-- Concrete fixture: a stub creation that succeeds at time 3. -/
def sampleCreateOk : CreateArgs → Promise Stub :=
  fun _ => { time := 3, result := .ok sampleStub }

/-- Concrete fixture: a stub creation that fails at time 2. -/
def sampleCreateFail : CreateArgs → Promise Stub :=
  fun _ => { time := 2, result := .error (.userError 9) }

/-- Concrete fixture: creation arguments with no options object. -/
def sampleArgsNoPath : CreateArgs := { arg0 := 0, options := none }

/-- Concrete fixture: creation arguments carrying a servicePath. -/
def sampleArgsWithPath : CreateArgs :=
  { arg0 := 0, options := some { servicePath := some "pubsub.googleapis.com" } }

theorem takeWhile_all_append (p : Char → Bool) (l1 : List Char) (c : Char) (l2 : List Char)
    (h1 : l1.all p = true) (hc : p c = false) :
    ((l1 ++ c :: l2).takeWhile p = l1) ∧ ((l1 ++ c :: l2).dropWhile p = c :: l2) := by
  induction l1 with
  | nil => simp [List.takeWhile, List.dropWhile, hc]
  | cons a t ih =>
    simp only [List.all_cons, Bool.and_eq_true] at h1
    obtain ⟨ha, ht⟩ := h1
    obtain ⟨iht, ihd⟩ := ih ht
    simp [List.takeWhile_cons, List.dropWhile_cons, ha, iht, ihd]

theorem fill_unary_eq (f : GrpcFunctionObject) (stubId : Nat) (si mn : String)
    (hreq : f.requestStream = false) (hres : f.responseStream = false) :
    fillGrpcFunction stubId si mn (.func (.orig f))
      = .func (.wrapper (.orig f) stubId "unary call" mn si) := by
  simp [fillGrpcFunction, callTypeOf, requestStreamOf, responseStreamOf, hreq, hres]

/-- C1: For a stub method with both streaming flags false, wrapping replaces it
with the unary-call wrapper; invoking the wrapped method while an ambient
transaction is active creates exactly one span with description
"unary call <methodName>" and operation "gcloud.grpc.<serviceIdentifier>",
and that span is finished exactly once when the handle emits its single
terminal "status" event and never before it; with no ambient transaction no
span is created. -/
theorem c1_unary_span_lifecycle
    (f : GrpcFunctionObject) (stubId : Nat) (si mn : String)
    (args : List Arg) (t : Nat) (h : Handle)
    (hreq : f.requestStream = false) (hres : f.responseStream = false)
    (hcall : f.call stubId args = .ok (some h)) (hon : h.onIsFunction = true) :
    fillGrpcFunction stubId si mn (.func (.orig f))
        = .func (.wrapper (.orig f) stubId "unary call" mn si)
    ∧ (invokeProp (fillGrpcFunction stubId si mn (.func (.orig f))) stubId (some t) args).startedSpans
        = [{ description := "unary call " ++ mn, op := "gcloud.grpc." ++ si }]
    ∧ spanFinishCount (invokeProp (fillGrpcFunction stubId si mn (.func (.orig f))) stubId (some t) args) 1 = 1
    ∧ spanFinishCount (invokeProp (fillGrpcFunction stubId si mn (.func (.orig f))) stubId (some t) args) 0 = 0
    ∧ (invokeProp (fillGrpcFunction stubId si mn (.func (.orig f))) stubId none args).startedSpans = [] := by
  have hfill := fill_unary_eq f stubId si mn hreq hres
  rw [hfill]
  refine ⟨rfl, ?_, ?_, ?_, ?_⟩ <;>
    simp [invokeProp, invokeFunc, hcall, retOnIsFunction, hon, spanFinishCount]

theorem c1_unary_span_lifecycle_witness :
    sampleUnaryFunc.requestStream = false
    ∧ sampleUnaryFunc.responseStream = false
    ∧ sampleUnaryFunc.call 7 [1, 2] = .ok (some sampleHandle)
    ∧ sampleHandle.onIsFunction = true
    ∧ (fillGrpcFunction 7 "pubsub" "getFoo" (.func (.orig sampleUnaryFunc))
          = .func (.wrapper (.orig sampleUnaryFunc) 7 "unary call" "getFoo" "pubsub")
      ∧ (invokeProp (fillGrpcFunction 7 "pubsub" "getFoo" (.func (.orig sampleUnaryFunc))) 7 (some 0) [1, 2]).startedSpans
          = [{ description := "unary call " ++ "getFoo", op := "gcloud.grpc." ++ "pubsub" }]
      ∧ spanFinishCount (invokeProp (fillGrpcFunction 7 "pubsub" "getFoo" (.func (.orig sampleUnaryFunc))) 7 (some 0) [1, 2]) 1 = 1
      ∧ spanFinishCount (invokeProp (fillGrpcFunction 7 "pubsub" "getFoo" (.func (.orig sampleUnaryFunc))) 7 (some 0) [1, 2]) 0 = 0
      ∧ (invokeProp (fillGrpcFunction 7 "pubsub" "getFoo" (.func (.orig sampleUnaryFunc))) 7 none [1, 2]).startedSpans = []) :=
  ⟨rfl, rfl, rfl, rfl,
    c1_unary_span_lifecycle sampleUnaryFunc 7 "pubsub" "getFoo" [1, 2] 0 sampleHandle rfl rfl rfl rfl⟩

/-- C2: A stub method with requestStream or responseStream set is left
untouched by the wrapper pass: the property is unchanged, and invoking it
behaves exactly like the unwrapped original with no span regardless of the
ambient transaction; likewise a non-callable property is left unchanged. -/
theorem c2_non_unary_untouched
    (f : GrpcFunctionObject) (stubId : Nat) (si mn : String) (v : Nat)
    (hstream : f.requestStream = true ∨ f.responseStream = true) :
    fillGrpcFunction stubId si mn (.func (.orig f)) = .func (.orig f)
    ∧ (∀ thisArg tx args,
        invokeProp (fillGrpcFunction stubId si mn (.func (.orig f))) thisArg tx args
          = { ret := f.call thisArg args, origCalls := [(thisArg, args)],
              startedSpans := [], statusListeners := [] })
    ∧ fillGrpcFunction stubId si mn (.value v) = .value v := by
  have huntouched : fillGrpcFunction stubId si mn (.func (.orig f)) = .func (.orig f) := by
    rcases hstream with hs | hs
    · cases hr : f.responseStream <;>
        simp [fillGrpcFunction, callTypeOf, requestStreamOf, responseStreamOf, hs, hr]
    · cases hr : f.requestStream <;>
        simp [fillGrpcFunction, callTypeOf, requestStreamOf, responseStreamOf, hs, hr]
  refine ⟨huntouched, ?_, rfl⟩
  intro thisArg tx args
  rw [huntouched]
  rfl

theorem c2_non_unary_untouched_witness :
    (sampleStreamFunc.requestStream = true ∨ sampleStreamFunc.responseStream = true)
    ∧ fillGrpcFunction 7 "pubsub" "streamFoo" (.func (.orig sampleStreamFunc))
        = .func (.orig sampleStreamFunc)
    ∧ invokeProp (fillGrpcFunction 7 "pubsub" "streamFoo" (.func (.orig sampleStreamFunc))) 7 (some 0) [1]
        = { ret := sampleStreamFunc.call 7 [1], origCalls := [(7, [1])],
            startedSpans := [], statusListeners := [] }
    ∧ fillGrpcFunction 7 "pubsub" "streamFoo" (.value 3) = .value 3 :=
  ⟨Or.inl rfl,
    (c2_non_unary_untouched sampleStreamFunc 7 "pubsub" "streamFoo" 3 (Or.inl rfl)).1,
    (c2_non_unary_untouched sampleStreamFunc 7 "pubsub" "streamFoo" 3 (Or.inl rfl)).2.1 7 (some 0) [1],
    (c2_non_unary_untouched sampleStreamFunc 7 "pubsub" "streamFoo" 3 (Or.inl rfl)).2.2⟩

/-- C3: When the second positional options argument carries no servicePath
(null, undefined, or the argument itself absent), the wrapped createStub
defers entirely to the original: same arguments, result returned as-is, no
method wrapped. -/
theorem c3_no_service_path_passthrough
    (origCreate : CreateArgs → Promise Stub) (cargs : CreateArgs)
    (hsp : servicePathOf cargs = none) :
    _wrapCreateStub origCreate cargs = origCreate cargs := by
  unfold _wrapCreateStub
  rw [hsp]

theorem c3_no_service_path_passthrough_witness :
    servicePathOf sampleArgsNoPath = none
    ∧ _wrapCreateStub sampleCreateOk sampleArgsNoPath = sampleCreateOk sampleArgsNoPath :=
  ⟨rfl, c3_no_service_path_passthrough sampleCreateOk sampleArgsNoPath rfl⟩

/-- C4: When the library fails to load during install, an installer whose
optional flag is set completes without throwing and patches nothing (so no
stub is ever wrapped), while one whose flag is clear rethrows the load
failure unchanged; and a constructor call with no options yields the
default optional = false. -/
theorem c4_optional_load_failure (self : GoogleCloudGrpc) (client : Nat) (e : Err) :
    GoogleCloudGrpc.install self client (.error e)
      = (if self._optional then .ok ({ self with _client := some client }, none) else .error e)
    ∧ (GoogleCloudGrpc.new none)._optional = false := by
  constructor
  · cases h : self._optional <;> simp [GoogleCloudGrpc.install, h]
  · rfl

/-- C5: Every service path of the form <word-characters>.googleapis.com,
with a nonempty all-word-character prefix and both dots literal, is mapped
by identifyService to that prefix. -/
theorem c5_identify_service_matching (pre : String)
    (hne : pre.data ≠ []) (hw : pre.data.all isWordChar = true) :
    identifyService (pre ++ ".googleapis.com") = pre := by
  obtain ⟨l⟩ := pre
  have hdata : (String.mk l ++ ".googleapis.com").data
      = l ++ ('.' :: 'g' :: 'o' :: 'o' :: 'g' :: 'l' :: 'e' :: 'a' :: 'p' :: 'i' :: 's' :: '.' :: 'c' :: 'o' :: 'm' :: []) := rfl
  have hdot : isWordChar '.' = false := by decide
  obtain ⟨htake, hdrop⟩ := takeWhile_all_append isWordChar l '.'
    ('g' :: 'o' :: 'o' :: 'g' :: 'l' :: 'e' :: 'a' :: 'p' :: 'i' :: 's' :: '.' :: 'c' :: 'o' :: 'm' :: []) hw hdot
  unfold identifyService
  rw [hdata, htake, hdrop]
  have hne2 : l.isEmpty = false := by
    cases l with
    | nil => exact absurd rfl hne
    | cons a t => rfl
  have htm : tailMatches ('.' :: 'g' :: 'o' :: 'o' :: 'g' :: 'l' :: 'e' :: 'a' :: 'p' :: 'i' :: 's' :: '.' :: 'c' :: 'o' :: 'm' :: []) = true := by decide
  rw [htm, hne2]
  simp

theorem c5_identify_service_matching_witness :
    ("pubsub" : String).data ≠ []
    ∧ ("pubsub" : String).data.all isWordChar = true
    ∧ identifyService ("pubsub" ++ ".googleapis.com") = "pubsub" :=
  ⟨by decide, by decide, c5_identify_service_matching "pubsub" (by decide) (by decide)⟩

/-- C6: The source regex leaves the dot before "com" unescaped, so it also
matches service paths that are not of the form <word>.googleapis.com: on
the input "pubsub.googleapisXcom", which does not match the anchored
pattern with both dots literal, identifyService returns "pubsub" instead
of the input unchanged. -/
theorem c6_unescaped_dot_failing_input :
    identifyService "pubsub.googleapisXcom" = "pubsub"
    ∧ ("pubsub" : String) ≠ "pubsub.googleapisXcom" :=
  ⟨rfl, by decide⟩

/-- C7: When the value returned by the original unary method lacks a
callable event-subscription function (a nullish return or an object whose
on is not a function), the wrapper returns it unmodified: no span is
created, no listener is attached, and no error is raised. -/
theorem c7_shape_mismatch_passthrough
    (f : GrpcFunctionObject) (stubId : Nat) (si mn : String)
    (thisArg : Nat) (tx : Option Nat) (args : List Arg) (ret : Option Handle)
    (hreq : f.requestStream = false) (hres : f.responseStream = false)
    (hcall : f.call stubId args = .ok ret) (hon : retOnIsFunction ret = false) :
    invokeProp (fillGrpcFunction stubId si mn (.func (.orig f))) thisArg tx args
      = { ret := .ok ret, origCalls := [(stubId, args)],
          startedSpans := [], statusListeners := [] } := by
  rw [fill_unary_eq f stubId si mn hreq hres]
  simp [invokeProp, invokeFunc, hcall, hon]

theorem c7_shape_mismatch_passthrough_witness :
    sampleNullFunc.requestStream = false
    ∧ sampleNullFunc.responseStream = false
    ∧ sampleNullFunc.call 7 [4] = .ok none
    ∧ retOnIsFunction none = false
    ∧ invokeProp (fillGrpcFunction 7 "pubsub" "getNull" (.func (.orig sampleNullFunc))) 7 (some 0) [4]
        = { ret := .ok none, origCalls := [(7, [4])],
            startedSpans := [], statusListeners := [] } :=
  ⟨rfl, rfl, rfl, rfl,
    c7_shape_mismatch_passthrough sampleNullFunc 7 "pubsub" "getNull" 7 (some 0) [4] none rfl rfl rfl rfl⟩

/-- C8: A failure of the original createStub is propagated by the wrapped
createStub unchanged; for every invocation of the wrapped createStub,
whether the original resolves or rejects, the wrapper settles no earlier
than the original settles; and a failure thrown by the original method
inside a wrapped unary method call is propagated unchanged to the caller. -/
theorem c8_failure_propagation
    (origCreate : CreateArgs → Promise Stub) (cargs : CreateArgs) (e : Err)
    (f : GrpcFunctionObject) (stubId : Nat) (si mn : String)
    (thisArg : Nat) (tx : Option Nat) (margs : List Arg) (e2 : Err)
    (hfail : (origCreate cargs).result = .error e)
    (hreq : f.requestStream = false) (hres : f.responseStream = false)
    (hmfail : f.call stubId margs = .error e2) :
    (_wrapCreateStub origCreate cargs).result = .error e
    ∧ (∀ (create2 : CreateArgs → Promise Stub) (cargs2 : CreateArgs),
        (create2 cargs2).time ≤ (_wrapCreateStub create2 cargs2).time)
    ∧ (invokeProp (fillGrpcFunction stubId si mn (.func (.orig f))) thisArg tx margs).ret
        = .error e2 := by
  refine ⟨?_, ?_, ?_⟩
  · unfold _wrapCreateStub
    cases hsp : servicePathOf cargs <;> simp [hsp, hfail]
  · intro create2 cargs2
    unfold _wrapCreateStub
    cases hsp : servicePathOf cargs2 with
    | none => exact le_refl _
    | some sp =>
      cases hr : (create2 cargs2).result <;> simp [hsp, hr]
  · rw [fill_unary_eq f stubId si mn hreq hres]
    simp [invokeProp, invokeFunc, hmfail]

theorem c8_failure_propagation_witness :
    (sampleCreateFail sampleArgsWithPath).result = .error (.userError 9)
    ∧ sampleFailFunc.requestStream = false
    ∧ sampleFailFunc.responseStream = false
    ∧ sampleFailFunc.call 7 [2] = .error (.userError 5)
    ∧ ((_wrapCreateStub sampleCreateFail sampleArgsWithPath).result = .error (.userError 9)
      ∧ (sampleCreateOk sampleArgsWithPath).time ≤ (_wrapCreateStub sampleCreateOk sampleArgsWithPath).time
      ∧ (sampleCreateFail sampleArgsWithPath).time ≤ (_wrapCreateStub sampleCreateFail sampleArgsWithPath).time
      ∧ (invokeProp (fillGrpcFunction 7 "pubsub" "getErr" (.func (.orig sampleFailFunc))) 7 (some 0) [2]).ret
          = .error (.userError 5)) :=
  ⟨rfl, rfl, rfl, rfl,
    (c8_failure_propagation sampleCreateFail sampleArgsWithPath (.userError 9)
      sampleFailFunc 7 "pubsub" "getErr" 7 (some 0) [2] (.userError 5) rfl rfl rfl rfl).1,
    (c8_failure_propagation sampleCreateFail sampleArgsWithPath (.userError 9)
      sampleFailFunc 7 "pubsub" "getErr" 7 (some 0) [2] (.userError 5) rfl rfl rfl rfl).2.1
      sampleCreateOk sampleArgsWithPath,
    (c8_failure_propagation sampleCreateFail sampleArgsWithPath (.userError 9)
      sampleFailFunc 7 "pubsub" "getErr" 7 (some 0) [2] (.userError 5) rfl rfl rfl rfl).2.1
      sampleCreateFail sampleArgsWithPath,
    (c8_failure_propagation sampleCreateFail sampleArgsWithPath (.userError 9)
      sampleFailFunc 7 "pubsub" "getErr" 7 (some 0) [2] (.userError 5) rfl rfl rfl rfl).2.2⟩

/-- C9: Counterexample to "the Installer's state after a suppressed load
failure equals its state before register was called": install assigns the
client reference before the load attempt, so for a fresh optional installer
the state afterwards stores the client and differs from the state before. -/
theorem c9_state_change_counterexample :
    GoogleCloudGrpc.install { _client := none, _optional := true } 0 (.error (.userError 0))
        = .ok ({ _client := some 0, _optional := true }, none)
    ∧ ({ _client := some 0, _optional := true } : GoogleCloudGrpc)
        ≠ { _client := none, _optional := true } :=
  ⟨rfl, by decide⟩

/-- C9 amended: When the installer is optional and the library fails to
load, the failure is fully suppressed and nothing is patched; the only
state left behind is the client reference, which install assigns before
attempting the load. -/
theorem c9_optional_failure_only_client_assigned
    (self : GoogleCloudGrpc) (client : Nat) (e : Err)
    (hopt : self._optional = true) :
    GoogleCloudGrpc.install self client (.error e)
      = .ok ({ self with _client := some client }, none) := by
  simp [GoogleCloudGrpc.install, hopt]

theorem c9_optional_failure_only_client_assigned_witness :
    ({ _client := none, _optional := true } : GoogleCloudGrpc)._optional = true
    ∧ GoogleCloudGrpc.install { _client := none, _optional := true } 5 (.error (.userError 1))
        = .ok ({ _client := some 5, _optional := true }, none) :=
  ⟨rfl, c9_optional_failure_only_client_assigned { _client := none, _optional := true } 5 (.userError 1) rfl⟩

/-- C10: Invoking a wrapped unary method as a method of the stub (so its
receiver is the stub, the receiver the wrapper applies the original with)
calls the original exactly once with the same arguments and that same
receiver, and returns the original's result unchanged. -/
theorem c10_same_args_receiver_unaltered_result
    (f : GrpcFunctionObject) (stubId : Nat) (si mn : String)
    (thisArg : Nat) (tx : Option Nat) (args : List Arg)
    (hreq : f.requestStream = false) (hres : f.responseStream = false)
    (hrecv : thisArg = stubId) :
    (invokeProp (fillGrpcFunction stubId si mn (.func (.orig f))) thisArg tx args).origCalls
        = [(thisArg, args)]
    ∧ (invokeProp (fillGrpcFunction stubId si mn (.func (.orig f))) thisArg tx args).ret
        = f.call thisArg args := by
  subst hrecv
  rw [fill_unary_eq f thisArg si mn hreq hres]
  simp only [invokeProp, invokeFunc]
  cases hc : f.call thisArg args with
  | error e => simp [hc]
  | ok ret =>
    cases hon : retOnIsFunction ret with
    | false => simp [hc, hon]
    | true =>
      cases tx with
      | none => simp [hc, hon]
      | some t => simp [hc, hon]

theorem c10_same_args_receiver_unaltered_result_witness :
    sampleUnaryFunc.requestStream = false
    ∧ sampleUnaryFunc.responseStream = false
    ∧ (7 : Nat) = 7
    ∧ ((invokeProp (fillGrpcFunction 7 "pubsub" "getFoo" (.func (.orig sampleUnaryFunc))) 7 (some 0) [9]).origCalls
          = [(7, [9])]
      ∧ (invokeProp (fillGrpcFunction 7 "pubsub" "getFoo" (.func (.orig sampleUnaryFunc))) 7 (some 0) [9]).ret
          = sampleUnaryFunc.call 7 [9]) :=
  ⟨rfl, rfl, rfl,
    c10_same_args_receiver_unaltered_result sampleUnaryFunc 7 "pubsub" "getFoo" 7 (some 0) [9] rfl rfl rfl⟩
